import Mathlib

set_option maxHeartbeats 1000000

/-! Shallow embedding of the two screens of `src/frontend-dupss/src/components/auth/Login.jsx`
(the Login form and the VideoMeeting consultation flow). Pure data flow is translated to
Lean functions; browser storage, backend responses and user decisions are explicit
environment records; throwing JavaScript code is `Except`-valued with `catch` blocks
embedded at the places the source has them. -/

/-- Appointment payload as consumed by the meeting flow: only the `status` field is read. -/
structure ApptResult where
  status : String
  deriving DecidableEq, Repr

/-- Body of an HTTP response to the appointment read: `response.json()` may throw
(`malformed`), or the parsed object may lack a truthy `status` field (`json none` /
`json (some "")`). -/
inductive ApptBody where
  | malformed : ApptBody
  | json : Option String → ApptBody
  deriving DecidableEq, Repr

/-- Outcome of one `fetch` of the appointment endpoint: the request promise may reject
(`thrown`, e.g. a network error) or deliver an HTTP response with a status code and body. -/
inductive FetchResult where
  | thrown : FetchResult
  | http : Nat → ApptBody → FetchResult
  deriving DecidableEq, Repr

/-- Body of a response from the refresh-token endpoint. -/
inductive RefreshBody where
  | malformed : RefreshBody
  | json : Option String → RefreshBody
  deriving DecidableEq, Repr

/-- Outcome of the `fetch` of the refresh-token endpoint. -/
inductive RefreshResponse where
  | thrown : RefreshResponse
  | http : Nat → RefreshBody → RefreshResponse
  deriving DecidableEq, Repr

/-- User data returned by `getUserData()`; only the `id` field is consulted by the
meeting flow, with `""` standing for a missing (falsy) id. -/
structure UserData where
  id : String
  deriving DecidableEq, Repr

/-- Environment of the consultation meeting flow: durable storage contents, the backend's
responses to successive appointment reads (indexed by request number), the refresh
endpoint's response, and whether the start/end mutation requests resolve. -/
structure FetchEnv where
  userData : Option UserData
  accessToken : Option String
  refreshToken : Option String
  apptResponses : Nat → FetchResult
  refreshResponse : RefreshResponse
  startPutOk : Bool
  endPutOk : Bool

/-- HTTP `response.ok`: the status code is in the 200 range. -/
def respOk (code : Nat) : Bool := 200 ≤ code && code ≤ 299

/-- Instrumentation: how many appointment requests and refresh attempts a status read issued. -/
structure FetchTrace where
  fetchCalls : Nat
  refreshCalls : Nat
  deriving DecidableEq, Repr

/-- Embedding of `refreshAccessToken` (Login.jsx): reads the stored refresh token (throwing
when absent), posts it to the refresh endpoint, requires an `ok` response whose body has a
truthy `accessToken`, and returns that token; every failure is rethrown to the caller. -/
def refreshAccessToken (env : FetchEnv) : Except Unit String :=
  match env.refreshToken with
  | none => .error ()
  | some rt =>
    if rt = "" then .error ()
    else
      match env.refreshResponse with
      | .thrown => .error ()
      | .http code body =>
        if respOk code then
          match body with
          | .malformed => .error ()
          | .json none => .error ()
          | .json (some tk) => if tk = "" then .error () else .ok tk
        else .error ()

/-- Handling of a delivered appointment response outside the 401-refresh branch
(`!response.ok` check, `response.json()`, `!data || !data.status` check). -/
def processResponse (code : Nat) (body : ApptBody) : ApptResult :=
  if respOk code then
    match body with
    | .malformed => { status := "UNKNOWN" }
    | .json none => { status := "UNKNOWN" }
    | .json (some s) => if s = "" then { status := "UNKNOWN" } else { status := s }
  else { status := "UNKNOWN" }

/-- Embedding of `fetchAppointmentWithTokenRefresh` (Login.jsx): reads the stored access
token (UNKNOWN when absent), fetches the appointment; on a 401 when not already retrying it
refreshes the token once and retries with the new token; every other failure (rejected
fetch, non-ok response, malformed body, missing status, failed refresh) yields
`{status: "UNKNOWN"}`. The source's `isRetry` flag is rendered as a retry budget:
`retriesLeft = 1` is the initial call (`isRetry: false`), `retriesLeft = 0` the retried
call (`isRetry: true`). The second component counts the requests issued. -/
def fetchAppointmentWithTokenRefresh (env : FetchEnv) (idx : Nat) (retriesLeft : Nat) :
    ApptResult × FetchTrace :=
  match env.accessToken with
  | none => ({ status := "UNKNOWN" }, ⟨0, 0⟩)
  | some tok =>
    if tok = "" then ({ status := "UNKNOWN" }, ⟨0, 0⟩)
    else
      match env.apptResponses idx with
      | .thrown => ({ status := "UNKNOWN" }, ⟨1, 0⟩)
      | .http code body =>
        match retriesLeft with
        | 0 => (processResponse code body, ⟨1, 0⟩)
        | n + 1 =>
          if code = 401 then
            match refreshAccessToken env with
            | .error _ => ({ status := "UNKNOWN" }, ⟨1, 1⟩)
            | .ok tk =>
              let r := fetchAppointmentWithTokenRefresh
                { env with accessToken := some tk } (idx + 1) n
              (r.1, ⟨r.2.fetchCalls + 1, r.2.refreshCalls + 1⟩)
          else (processResponse code body, ⟨1, 0⟩)

/-- Body of `checkAppointmentStatus`'s try block: missing or id-less user data throws,
otherwise the guarded fetch's result is returned. -/
def checkAppointmentStatusBody (env : FetchEnv) : Except Unit ApptResult :=
  match env.userData with
  | none => .error ()
  | some u =>
    if u.id = "" then .error ()
    else .ok (fetchAppointmentWithTokenRefresh env 0 1).1

/-- Embedding of `checkAppointmentStatus` (Login.jsx): its catch converts every failure of
the body into `{status: "UNKNOWN"}`, so the read never rejects. -/
def checkAppointmentStatus (env : FetchEnv) : ApptResult :=
  match checkAppointmentStatusBody env with
  | .ok r => r
  | .error _ => { status := "UNKNOWN" }

/-- Embedding of `String.prototype.toUpperCase` restricted to the ASCII range (statuses
compared by the flow are ASCII). -/
def toUpperCase (s : String) : String := String.mk (s.data.map Char.toUpper)

/-- Embedding of `String.prototype.trim`. -/
def jsTrim (s : String) : String :=
  String.mk (((s.data.dropWhile Char.isWhitespace).reverse.dropWhile Char.isWhitespace).reverse)

/-- A local media capture track: whether it has ended, and how many times it transitioned
from live to ended. `MediaStreamTrack.stop()` on an already ended track is a no-op. -/
structure Track where
  ended : Bool
  stops : Nat
  deriving DecidableEq, Repr

/-- Browser semantics of `track.stop()`: idempotent; a live track ends (one transition). -/
def stopTrack (t : Track) : Track :=
  if t.ended then t else { ended := true, stops := t.stops + 1 }

/-- `stream.getTracks().forEach(track => track.stop())` over an optional stream. -/
def stopStream : Option (List Track) → Option (List Track)
  | none => none
  | some ts => some (ts.map stopTrack)

/-- UI and side-effect state of the VideoMeeting component: React state flags, the
`meetingRef` handle (live or nulled), the custom media streams, and instrumentation
counting external calls (SDK `leave()`, start/end mutations, alerts). -/
structure MeetState where
  isMeetingStarted : Bool := false
  openStartDialog : Bool := false
  openEndDialog : Bool := false
  loading : Bool := false
  error : String := ""
  consultantNote : String := ""
  meetingRefLive : Bool := false
  screenShareOn : Bool := false
  customAudioStream : Option (List Track) := none
  customVideoStream : Option (List Track) := none
  leaveCalls : Nat := 0
  stopScreenShareCalls : Nat := 0
  startCalls : Nat := 0
  endCalls : List String := []
  alerts : List (Bool × String) := []
  navigatedHome : Bool := false
  deriving DecidableEq, Repr

def nameRequiredMsg : String := "Vui lòng nhập tên của bạn"
def startSuccessMsg : String := "Bắt đầu buổi tư vấn thành công!"
def startFailMsg : String := "Không thể bắt đầu buổi tư vấn: Lỗi không xác định"
def endSuccessMsg : String := "Hoàn thành buổi tư vấn thành công!"
def endFailMsg : String := "Không thể kết thúc buổi tư vấn: Lỗi không xác định"

/-- Embedding of `handleOnMeetingLeave` (Login.jsx): leave the SDK meeting if the ref is
still live, stop both custom streams, null the ref, clear `isMeetingStarted`, navigate home. -/
def handleOnMeetingLeave (st : MeetState) : MeetState :=
  let st1 := if st.meetingRefLive then { st with leaveCalls := st.leaveCalls + 1 } else st
  let st2 := { st1 with
    customAudioStream := stopStream st1.customAudioStream,
    customVideoStream := stopStream st1.customVideoStream }
  { st2 with meetingRefLive := false, isMeetingStarted := false, navigatedHome := true }

/-- Embedding of the unmount cleanup effect of `VideoMeeting`: if the ref is live, stop
screen sharing when active and leave the meeting; then stop both custom streams. The ref
is not nulled by this path. -/
def unmountCleanup (st : MeetState) : MeetState :=
  let st1 :=
    if st.meetingRefLive then
      let stA :=
        if st.screenShareOn then
          { st with stopScreenShareCalls := st.stopScreenShareCalls + 1, screenShareOn := false }
        else st
      { stA with leaveCalls := stA.leaveCalls + 1 }
    else st
  { st1 with
    customAudioStream := stopStream st1.customAudioStream,
    customVideoStream := stopStream st1.customVideoStream }

/-- Embedding of `onClickStartMeeting` (Login.jsx): require a non-blank participant name;
for a consultant, read the appointment status and open the start dialog exactly when its
uppercased form is `CONFIRMED`, otherwise join directly; non-consultants join directly. -/
def onClickStartMeeting (fenv : FetchEnv) (isConsultant : Bool) (participantName : String)
    (st : MeetState) : MeetState :=
  if jsTrim participantName = "" then { st with error := nameRequiredMsg }
  else
    let st := { st with loading := true }
    if isConsultant then
      let d := checkAppointmentStatus fenv
      if toUpperCase d.status = "CONFIRMED" then
        { st with loading := false, openStartDialog := true }
      else
        { st with isMeetingStarted := true, error := "", loading := false }
    else
      { st with isMeetingStarted := true, error := "", loading := false }

/-- Embedding of `handleConfirmStartMeeting` (Login.jsx): close the dialog, require user
data, re-read the status; issue the start mutation only when the status is literally
`CONFIRMED` (a rejected mutation is surfaced and aborts the join); then join the meeting. -/
def handleConfirmStartMeeting (fenv : FetchEnv) (st : MeetState) : MeetState :=
  let st := { st with loading := true, openStartDialog := false }
  match fenv.userData with
  | none => { st with alerts := st.alerts ++ [(false, startFailMsg)], loading := false }
  | some u =>
    if u.id = "" then { st with alerts := st.alerts ++ [(false, startFailMsg)], loading := false }
    else
      let d := checkAppointmentStatus fenv
      if d.status = "CONFIRMED" then
        if fenv.startPutOk then
          { st with startCalls := st.startCalls + 1,
                    alerts := st.alerts ++ [(true, startSuccessMsg)],
                    isMeetingStarted := true, error := "" }
        else
          { st with startCalls := st.startCalls + 1,
                    alerts := st.alerts ++ [(false, startFailMsg)], loading := false }
      else
        { st with isMeetingStarted := true, error := "" }

/-- Cancel button / backdrop close of the start dialog: `setOpenStartDialog(false)`. -/
def cancelStartDialog (st : MeetState) : MeetState := { st with openStartDialog := false }

/-- Cancel button / backdrop close of the end dialog: `setOpenEndDialog(false)`. -/
def cancelEndDialog (st : MeetState) : MeetState := { st with openEndDialog := false }

/-- Typing into the consultant-note textarea: `setConsultantNote`. -/
def setConsultantNote (note : String) (st : MeetState) : MeetState :=
  { st with consultantNote := note }

/-- Embedding of `handleEndMeeting` (Login.jsx): a consultant reads the status and opens
the end dialog exactly when it is `ON_GOING`, otherwise leaves directly; non-consultants
leave directly. (`checkAppointmentStatus` never rejects, so its `.catch` is not a branch.) -/
def handleEndMeeting (fenv : FetchEnv) (isConsultant : Bool) (st : MeetState) : MeetState :=
  if isConsultant then
    let d := checkAppointmentStatus fenv
    if d.status = "ON_GOING" then { st with openEndDialog := true }
    else handleOnMeetingLeave st
  else handleOnMeetingLeave st

/-- Embedding of `handleConfirmEndMeeting` (Login.jsx): close the dialog, require user
data, re-read the status; when it is `ON_GOING`, issue the end mutation carrying the
entered note (a rejected mutation is surfaced and aborts the leave); then leave the SDK
meeting directly via the ref and additionally run `handleOnMeetingLeave`. -/
def handleConfirmEndMeeting (fenv : FetchEnv) (st : MeetState) : MeetState :=
  let st := { st with openEndDialog := false }
  match fenv.userData with
  | none => { st with alerts := st.alerts ++ [(false, endFailMsg)] }
  | some u =>
    if u.id = "" then { st with alerts := st.alerts ++ [(false, endFailMsg)] }
    else
      let d := checkAppointmentStatus fenv
      if d.status = "ON_GOING" then
        if fenv.endPutOk then
          let st := { st with endCalls := st.endCalls ++ [st.consultantNote],
                              alerts := st.alerts ++ [(true, endSuccessMsg)] }
          let st := if st.meetingRefLive then { st with leaveCalls := st.leaveCalls + 1 } else st
          handleOnMeetingLeave st
        else
          { st with endCalls := st.endCalls ++ [st.consultantNote],
                    alerts := st.alerts ++ [(false, endFailMsg)] }
      else
        let st := if st.meetingRefLive then { st with leaveCalls := st.leaveCalls + 1 } else st
        handleOnMeetingLeave st

/-- Embedding of `handleShowEndDialog` (Login.jsx): a consultant resets the note and opens
the end dialog immediately, then reads the status in the background; when it is not
`ON_GOING` the dialog is closed again and the meeting is left; non-consultants leave
directly. (`checkAppointmentStatus` never rejects, so its `.catch` is not a branch.) -/
def handleShowEndDialog (fenv : FetchEnv) (isConsultant : Bool) (st : MeetState) : MeetState :=
  if isConsultant then
    let st := { st with consultantNote := "", openEndDialog := true }
    let d := checkAppointmentStatus fenv
    if d.status = "ON_GOING" then st
    else handleOnMeetingLeave { st with openEndDialog := false }
  else handleOnMeetingLeave st

/-- Token pair returned by the auth endpoints. -/
structure TokenPair where
  accessToken : String
  refreshToken : String
  deriving DecidableEq, Repr

/-- A thrown JavaScript error, as far as the login handler inspects it: its `name`. -/
structure JsError where
  name : String
  deriving DecidableEq, Repr

/-- Externally observable events of the login flows, in the order they are performed. -/
inductive LEv where
  | loginAttempt : LEv
  | storeAccessToken : String → LEv
  | storeRefreshToken : String → LEv
  | setLoginSuccess : LEv
  | surveyFlush : LEv
  | clearRedirect : LEv
  | redirect : String → LEv
  | alertError : String → LEv
  deriving DecidableEq, Repr

/-- JS truthiness of an optional string (`undefined`/`null`/`""` are falsy). -/
def truthyStr : Option String → Option String
  | none => none
  | some s => if s = "" then none else some s

/-- Environment of `handleSubmit`: the form fields, the outcome of the external login
call, and the stored redirect targets. -/
structure LoginEnv where
  username : String
  password : String
  loginResult : Except JsError TokenPair
  redirectAfterLogin : Option String
  returnUrl : Option String

def networkErrorMsg : String := "Đã xảy ra lỗi khi đăng nhập. Vui lòng thử lại sau."
def badCredentialsMsg : String := "Username hoặc Mật khẩu sai!"
def googleFailMsg : String := "Đăng nhập bằng Google thất bại. Vui lòng thử lại sau."

/-- Redirect step shared by both login paths: the saved `redirectAfterLogin` wins (and is
cleared), else the router-provided `returnUrl`, else the application root. -/
def redirectEvents (redirectAfterLogin returnUrl : Option String) : List LEv :=
  match truthyStr redirectAfterLogin with
  | some url => [.clearRedirect, .redirect url]
  | none =>
    match truthyStr returnUrl with
    | some url => [.redirect url]
    | none => [.redirect "/"]

/-- Modelled from the spec: `authService.login` (src only holds its caller) —
`login(username, password) → {accessToken, refreshToken} | failure`; on success the two
tokens are persisted in durable storage before the call resolves. -/
def loginServiceEvents (tp : TokenPair) : List LEv :=
  [.storeAccessToken tp.accessToken, .storeRefreshToken tp.refreshToken]

/-- Embedding of `handleSubmit` (Login.jsx): validate the form locally (blank username
after trim, or empty password, block the submission); call the login service; on success
flag login success, flush any pending survey, then redirect; on failure classify the error
by its `name` into a connectivity notice or an invalid-credentials notice. -/
def handleSubmit (env : LoginEnv) : List LEv :=
  if jsTrim env.username = "" ∨ env.password = "" then []
  else
    .loginAttempt ::
      match env.loginResult with
      | .ok tp =>
        loginServiceEvents tp ++ [.setLoginSuccess, .surveyFlush] ++
          redirectEvents env.redirectAfterLogin env.returnUrl
      | .error e =>
        if e.name = "TypeError" ∨ e.name = "NetworkError" then [.alertError networkErrorMsg]
        else [.alertError badCredentialsMsg]

/-- Environment of `handleGoogleLoginResponse`: outcome of posting the Google credential
to the backend, and the stored redirect targets. -/
structure GoogleEnv where
  googleResult : Except JsError TokenPair
  redirectAfterLogin : Option String
  returnUrl : Option String

/-- Embedding of `handleGoogleLoginResponse` (Login.jsx): on success store both tokens,
flag login success, flush any pending survey, then redirect; on failure show a Google
login error notice. -/
def handleGoogleLoginResponse (env : GoogleEnv) : List LEv :=
  match env.googleResult with
  | .ok tp =>
    [.storeAccessToken tp.accessToken, .storeRefreshToken tp.refreshToken,
     .setLoginSuccess, .surveyFlush] ++
      redirectEvents env.redirectAfterLogin env.returnUrl
  | .error _ => [.alertError googleFailMsg]

/-- The queued survey payload in durable storage: absent, unparsable JSON, or a parsed
object whose `surveyId` / `selectedOptionIds` fields may be missing or falsy. -/
inductive StoredSurvey where
  | absent : StoredSurvey
  | malformed : StoredSurvey
  | payload : Option String → Option (List Nat) → StoredSurvey
  deriving DecidableEq, Repr

/-- Environment of the survey flush: the stored payload and whether `submitSurveyResult`
resolves. -/
structure SurveyEnv where
  pending : StoredSurvey
  submitOk : Bool
  deriving Repr

/-- Outcome of one run of the survey flush: its return value, the queued payload left in
storage, the result record written this run (`none` when nothing was written), and
whether a submission to the server was attempted. -/
structure SurveyRun where
  returned : Bool
  pendingAfter : StoredSurvey
  resultRecord : Option Bool
  submitAttempted : Bool
  deriving DecidableEq, Repr

/-- Embedding of `handlePendingSurveySubmission` (Login.jsx): nothing queued returns
false; a queued payload is parsed (parse failure throws), its `surveyId` and
`selectedOptionIds` are required truthy (else throws), and the result is submitted; the
success path removes the payload and records success, and the catch records failure and
also removes the payload. -/
def handlePendingSurveySubmission (env : SurveyEnv) : SurveyRun :=
  match env.pending with
  | .absent => { returned := false, pendingAfter := .absent,
                 resultRecord := none, submitAttempted := false }
  | .malformed => { returned := false, pendingAfter := .absent,
                    resultRecord := some false, submitAttempted := false }
  | .payload sid ids =>
    if truthyStr sid = none ∨ ids = none then
      { returned := false, pendingAfter := .absent,
        resultRecord := some false, submitAttempted := false }
    else if env.submitOk then
      { returned := true, pendingAfter := .absent,
        resultRecord := some true, submitAttempted := true }
    else
      { returned := false, pendingAfter := .absent,
        resultRecord := some false, submitAttempted := true }

/-- Fields of the parsed `userProfile` blob that the participant-id derivation consults. -/
structure Profile where
  id : Option String
  userId : Option String
  email : Option String
  deriving DecidableEq, Repr

/-- The `userProfile` entry of durable storage: absent, unparsable JSON, or parsed. -/
inductive StoredProfile where
  | absent : StoredProfile
  | malformed : StoredProfile
  | parsed : Profile → StoredProfile
  deriving DecidableEq, Repr

/-- Environment of `getParticipantId`: the stored profile, the tab-scoped cached id, and
the value `crypto.randomUUID()` would draw next. -/
structure IdEnv where
  userProfile : StoredProfile
  tempParticipantId : Option String
  nextUUID : String
  deriving DecidableEq, Repr

/-- JS truthiness chain `a || b || ...` over optional strings. -/
def firstTruthy : List (Option String) → Option String
  | [] => none
  | o :: rest =>
    match o with
    | some s => if s = "" then firstTruthy rest else some s
    | none => firstTruthy rest

/-- The user id `getParticipantId` extracts from the stored profile:
`profile.id || profile.userId || profile.email`, none for an absent or unparsable blob. -/
def profileUserId : StoredProfile → Option String
  | .parsed p => firstTruthy [p.id, p.userId, p.email]
  | _ => none

/-- Embedding of `getParticipantId` (Login.jsx): with a truthy profile-derived user id the
participant id is `user-<uid>-meeting-<meetingId>`; otherwise the tab-scoped
`tempParticipantId` is used, drawing and caching a fresh random id when the tab storage is
empty. Returns the id together with the updated tab storage. -/
def getParticipantId (meetingId : String) (env : IdEnv) : String × IdEnv :=
  match profileUserId env.userProfile with
  | some uid => ("user-" ++ uid ++ "-meeting-" ++ meetingId, env)
  | none =>
    match env.tempParticipantId with
    | some t => (t, env)
    | none =>
      let envN := { env with tempParticipantId := some env.nextUUID }
      (env.nextUUID, envN)

/-! Claim theorems. -/

/-- Concrete environment whose status read yields the string `"confirmed"`. -/
def c1CounterEnv : FetchEnv :=
  { userData := some ⟨"u1"⟩, accessToken := some "tok", refreshToken := some "rt",
    apptResponses := fun _ => .http 200 (.json (some "confirmed")),
    refreshResponse := .thrown, startPutOk := true, endPutOk := true }

/-- C1 (counterexample): with observed appointment status `"confirmed"` — a status other
than `CONFIRMED` — the consultant's start intent does not join the meeting directly as the
claim states: it shows the confirmation prompt instead (the uppercased comparison in
`onClickStartMeeting`), and even an explicit confirmation issues no start mutation (the
literal comparison in `handleConfirmStartMeeting`). -/
theorem c1_start_gate_counterexample :
    (checkAppointmentStatus c1CounterEnv).status ≠ "CONFIRMED" ∧
    (onClickStartMeeting c1CounterEnv true "Alice" {}).isMeetingStarted = false ∧
    (onClickStartMeeting c1CounterEnv true "Alice" {}).openStartDialog = true ∧
    (handleConfirmStartMeeting c1CounterEnv
      (onClickStartMeeting c1CounterEnv true "Alice" {})).startCalls = 0 := by
  decide

/-- C1 (amended): for every observed appointment status, the start intent gates on the
UPPERCASED status: if its uppercase form is not `CONFIRMED` the meeting is joined directly
and no start mutation is ever issued; if its uppercase form is `CONFIRMED` a confirmation
prompt is shown (no join, no mutation yet), and on explicit confirmation the start
mutation is issued if and only if the status is literally `CONFIRMED`, after which the
meeting is joined; cancelling issues no mutation and no join. -/
theorem c1_start_gate (fenv : FetchEnv) (name : String) (st : MeetState) (s : String)
    (u : UserData)
    (hname : jsTrim name ≠ "")
    (hcheck : checkAppointmentStatus fenv = ⟨s⟩)
    (hu : fenv.userData = some u) (hid : u.id ≠ "")
    (hput : fenv.startPutOk = true)
    (hdlg : st.openStartDialog = false)
    (hstart : st.isMeetingStarted = false)
    (hcalls : st.startCalls = 0) :
    (toUpperCase s ≠ "CONFIRMED" →
      (onClickStartMeeting fenv true name st).isMeetingStarted = true ∧
      (onClickStartMeeting fenv true name st).openStartDialog = false ∧
      (onClickStartMeeting fenv true name st).startCalls = 0) ∧
    (toUpperCase s = "CONFIRMED" →
      (onClickStartMeeting fenv true name st).openStartDialog = true ∧
      (onClickStartMeeting fenv true name st).isMeetingStarted = false ∧
      (onClickStartMeeting fenv true name st).startCalls = 0 ∧
      ((handleConfirmStartMeeting fenv (onClickStartMeeting fenv true name st)).startCalls = 1 ↔
        s = "CONFIRMED") ∧
      (handleConfirmStartMeeting fenv (onClickStartMeeting fenv true name st)).isMeetingStarted
        = true ∧
      (cancelStartDialog (onClickStartMeeting fenv true name st)).startCalls = 0 ∧
      (cancelStartDialog (onClickStartMeeting fenv true name st)).isMeetingStarted = false ∧
      (cancelStartDialog (onClickStartMeeting fenv true name st)).openStartDialog = false) := by
  constructor
  · intro hne
    simp [onClickStartMeeting, if_neg hname, hcheck, hne, hdlg, hcalls]
  · intro heq
    constructor
    · simp [onClickStartMeeting, if_neg hname, hcheck, heq]
    constructor
    · simp [onClickStartMeeting, if_neg hname, hcheck, heq, hstart]
    constructor
    · simp [onClickStartMeeting, if_neg hname, hcheck, heq, hcalls]
    refine ⟨?_, ?_, ?_, ?_, ?_⟩ <;>
      simp [onClickStartMeeting, handleConfirmStartMeeting, cancelStartDialog,
        if_neg hname, hcheck, heq, hu, hid, hput, hstart, hcalls] <;>
      by_cases hs : s = "CONFIRMED" <;> simp [hs, hput]

/-- C2: for every observed appointment status, the consultant's end intent behaves as a
gate: any status other than `ON_GOING` leaves the meeting directly (the whole effect is
exactly `handleOnMeetingLeave`) and never issues the end mutation; status exactly
`ON_GOING` opens the confirmation dialog with the note field, confirming issues the end
mutation carrying the entered note and then leaves, and cancelling leaves the meeting
state unchanged and open. -/
theorem c2_end_gate (fenv : FetchEnv) (st : MeetState) (s note : String) (u : UserData)
    (hcheck : checkAppointmentStatus fenv = ⟨s⟩)
    (hu : fenv.userData = some u) (hid : u.id ≠ "")
    (hput : fenv.endPutOk = true)
    (hopen : st.isMeetingStarted = true)
    (hdlg : st.openEndDialog = false)
    (hend : st.endCalls = []) :
    (s ≠ "ON_GOING" →
      handleEndMeeting fenv true st = handleOnMeetingLeave st ∧
      (handleEndMeeting fenv true st).endCalls = [] ∧
      (handleEndMeeting fenv true st).isMeetingStarted = false) ∧
    (s = "ON_GOING" →
      (handleEndMeeting fenv true st).openEndDialog = true ∧
      (handleEndMeeting fenv true st).isMeetingStarted = true ∧
      (handleEndMeeting fenv true st).endCalls = [] ∧
      (handleConfirmEndMeeting fenv
        (setConsultantNote note (handleEndMeeting fenv true st))).endCalls = [note] ∧
      (handleConfirmEndMeeting fenv
        (setConsultantNote note (handleEndMeeting fenv true st))).isMeetingStarted = false ∧
      (handleConfirmEndMeeting fenv
        (setConsultantNote note (handleEndMeeting fenv true st))).navigatedHome = true ∧
      (cancelEndDialog (setConsultantNote note (handleEndMeeting fenv true st))).openEndDialog
        = false ∧
      (cancelEndDialog (setConsultantNote note (handleEndMeeting fenv true st))).isMeetingStarted
        = true ∧
      (cancelEndDialog (setConsultantNote note (handleEndMeeting fenv true st))).endCalls = [] ∧
      (cancelEndDialog (setConsultantNote note (handleEndMeeting fenv true st))).leaveCalls
        = st.leaveCalls ∧
      (cancelEndDialog (setConsultantNote note (handleEndMeeting fenv true st))).meetingRefLive
        = st.meetingRefLive ∧
      (cancelEndDialog (setConsultantNote note (handleEndMeeting fenv true st))).navigatedHome
        = st.navigatedHome) := by
  constructor
  · intro hne
    refine ⟨?_, ?_, ?_⟩ <;>
      simp [handleEndMeeting, handleOnMeetingLeave, hcheck, hne, hend] <;>
      split <;> simp [hend]
  · intro heq
    refine ⟨?_, ?_, ?_, ?_, ?_, ?_, ?_, ?_, ?_, ?_, ?_, ?_⟩ <;>
      simp [handleEndMeeting, handleConfirmEndMeeting, handleOnMeetingLeave, cancelEndDialog,
        setConsultantNote, hcheck, heq, hu, hid, hput, hopen, hend] <;>
      split <;> simp

/-- A successful refresh always yields a truthy (non-empty) access token. -/
lemma refreshAccessToken_ok_ne_empty {env : FetchEnv} {tk : String}
    (h : refreshAccessToken env = .ok tk) : tk ≠ "" := by
  unfold refreshAccessToken at h
  split at h
  · exact absurd h (by simp)
  · split at h
    · exact absurd h (by simp)
    · split at h
      · exact absurd h (by simp)
      · split at h
        · split at h
          · exact absurd h (by simp)
          · exact absurd h (by simp)
          · split at h
            · exact absurd h (by simp)
            · simp only [Except.ok.injEq] at h
              subst h
              assumption
        · exact absurd h (by simp)

/-- C3: on a first 401, the status read performs exactly one refresh attempt and at most
one retry; a successful retry returns the real status; a failed refresh, or any failing
retry — including a second 401, which never triggers a second refresh — degrades to
`UNKNOWN`. -/
theorem c3_refresh_retry (env : FetchEnv) (t : String) (b0 : ApptBody)
    (htok : env.accessToken = some t) (ht : t ≠ "")
    (h0 : env.apptResponses 0 = .http 401 b0) :
    (fetchAppointmentWithTokenRefresh env 0 1).2.refreshCalls = 1 ∧
    (fetchAppointmentWithTokenRefresh env 0 1).2.fetchCalls ≤ 2 ∧
    (refreshAccessToken env = .error () →
      (fetchAppointmentWithTokenRefresh env 0 1).1 = ⟨"UNKNOWN"⟩ ∧
      (fetchAppointmentWithTokenRefresh env 0 1).2.fetchCalls = 1) ∧
    (∀ tk, refreshAccessToken env = .ok tk →
      (fetchAppointmentWithTokenRefresh env 0 1).2.fetchCalls = 2 ∧
      (∀ c1 s, env.apptResponses 1 = .http c1 (.json (some s)) → respOk c1 = true → s ≠ "" →
        (fetchAppointmentWithTokenRefresh env 0 1).1 = ⟨s⟩) ∧
      (env.apptResponses 1 = .thrown →
        (fetchAppointmentWithTokenRefresh env 0 1).1 = ⟨"UNKNOWN"⟩) ∧
      (∀ c1 b1, env.apptResponses 1 = .http c1 b1 → respOk c1 = false →
        (fetchAppointmentWithTokenRefresh env 0 1).1 = ⟨"UNKNOWN"⟩) ∧
      (∀ b1, env.apptResponses 1 = .http 401 b1 →
        (fetchAppointmentWithTokenRefresh env 0 1).1 = ⟨"UNKNOWN"⟩)) := by
  rcases hr : refreshAccessToken env with e | tk0
  · refine ⟨?_, ?_, ?_, ?_⟩
    · simp [fetchAppointmentWithTokenRefresh, htok, ht, h0, hr]
    · simp [fetchAppointmentWithTokenRefresh, htok, ht, h0, hr]
    · intro _
      constructor <;> simp [fetchAppointmentWithTokenRefresh, htok, ht, h0, hr]
    · intro tk hk
      exact absurd hk (by simp)
  · have htk0 : tk0 ≠ "" := refreshAccessToken_ok_ne_empty hr
    refine ⟨?_, ?_, ?_, ?_⟩
    · rcases h1 : env.apptResponses 1 with _ | ⟨c1, b1⟩ <;>
        simp [fetchAppointmentWithTokenRefresh, htok, ht, h0, hr, htk0, h1]
    · rcases h1 : env.apptResponses 1 with _ | ⟨c1, b1⟩ <;>
        simp [fetchAppointmentWithTokenRefresh, htok, ht, h0, hr, htk0, h1]
    · intro he
      exact absurd he (by simp)
    · intro tk hk
      simp only [Except.ok.injEq] at hk
      subst hk
      refine ⟨?_, ?_, ?_, ?_, ?_⟩
      · rcases h1 : env.apptResponses 1 with _ | ⟨c1, b1⟩ <;>
          simp [fetchAppointmentWithTokenRefresh, htok, ht, h0, hr, htk0, h1]
      · intro c1 s h1 hok hs
        simp [fetchAppointmentWithTokenRefresh, processResponse, htok, ht, h0, hr, htk0, h1,
          hok, hs]
      · intro h1
        simp [fetchAppointmentWithTokenRefresh, htok, ht, h0, hr, htk0, h1]
      · intro c1 b1 h1 hok
        simp [fetchAppointmentWithTokenRefresh, processResponse, htok, ht, h0, hr, htk0, h1, hok]
      · intro b1 h1
        simp [fetchAppointmentWithTokenRefresh, processResponse, respOk, htok, ht, h0, hr, htk0,
          h1]

/-- Concrete environment in which the appointment fetch itself rejects (network error),
so the status cannot be determined. -/
def c4FailEnv : FetchEnv :=
  { userData := some ⟨"u1"⟩, accessToken := some "tok", refreshToken := some "rt",
    apptResponses := fun _ => .thrown, refreshResponse := .thrown,
    startPutOk := true, endPutOk := true }

/-- A running meeting with a live SDK handle. -/
def c4MeetingState : MeetState := { isMeetingStarted := true, meetingRefLive := true }

/-- C4 (code behavior at the failing input): when the status check fails it yields
`UNKNOWN` instead of rejecting, so the start path joins directly WITHOUT presenting the
confirmation prompt, and the end path closes the already-open prompt and leaves WITHOUT
surfacing any error — the callers' fail-safe catch branches are dead code. -/
theorem c4_failed_check_behavior :
    checkAppointmentStatus c4FailEnv = ⟨"UNKNOWN"⟩ ∧
    (onClickStartMeeting c4FailEnv true "Alice" {}).isMeetingStarted = true ∧
    (onClickStartMeeting c4FailEnv true "Alice" {}).openStartDialog = false ∧
    (handleShowEndDialog c4FailEnv true c4MeetingState).openEndDialog = false ∧
    (handleShowEndDialog c4FailEnv true c4MeetingState).isMeetingStarted = false ∧
    (handleShowEndDialog c4FailEnv true c4MeetingState).navigatedHome = true ∧
    (handleShowEndDialog c4FailEnv true c4MeetingState).alerts = [] := by
  decide

/-- C5: participant identity is deterministic per identity source — a signed-in profile
with truthy id `uid` yields `user-<uid>-meeting-<meetingId>` on every invocation; with no
profile-derived id, two invocations in the same tab session return the same cached
temporary id; and two fresh tab sessions drawing distinct random ids yield distinct
temporary ids. -/
theorem c5_participant_identity (M : String) (env env2 : IdEnv) (p : Profile) (uid : String) :
    (env.userProfile = .parsed p → p.id = some uid → uid ≠ "" →
      (getParticipantId M env).1 = "user-" ++ uid ++ "-meeting-" ++ M ∧
      (getParticipantId M (getParticipantId M env).2).1 = (getParticipantId M env).1) ∧
    (profileUserId env.userProfile = none →
      (getParticipantId M (getParticipantId M env).2).1 = (getParticipantId M env).1) ∧
    (profileUserId env.userProfile = none → profileUserId env2.userProfile = none →
      env.tempParticipantId = none → env2.tempParticipantId = none →
      env.nextUUID ≠ env2.nextUUID →
      (getParticipantId M env).1 ≠ (getParticipantId M env2).1) := by
  refine ⟨?_, ?_, ?_⟩
  · intro hp hid huid
    simp [getParticipantId, profileUserId, firstTruthy, hp, hid, huid]
  · intro hnone
    rcases htmp : env.tempParticipantId with _ | t <;>
      simp [getParticipantId, hnone, htmp]
  · intro hnone hnone2 htmp htmp2 hne
    simp [getParticipantId, hnone, hnone2, htmp, htmp2, hne]

/-- C6: every failed login submission lands in exactly one of two user-facing buckets —
a `TypeError`/`NetworkError` produces the generic connectivity notice, every other error
the invalid-credentials notice; no failure escapes without one of the two. -/
theorem c6_login_error_buckets (env : LoginEnv) (e : JsError)
    (hu : jsTrim env.username ≠ "") (hp : env.password ≠ "")
    (herr : env.loginResult = .error e) :
    ((e.name = "TypeError" ∨ e.name = "NetworkError") →
      handleSubmit env = [.loginAttempt, .alertError networkErrorMsg]) ∧
    (¬(e.name = "TypeError" ∨ e.name = "NetworkError") →
      handleSubmit env = [.loginAttempt, .alertError badCredentialsMsg]) ∧
    (∃ m, handleSubmit env = [.loginAttempt, .alertError m] ∧
      (m = networkErrorMsg ∨ m = badCredentialsMsg)) := by
  refine ⟨?_, ?_, ?_⟩
  · intro hn
    simp [handleSubmit, hu, hp, herr, hn]
  · intro hn
    simp only [not_or] at hn
    simp [handleSubmit, hu, hp, herr, hn.1, hn.2]
  · by_cases hn : e.name = "TypeError" ∨ e.name = "NetworkError"
    · exact ⟨networkErrorMsg, by simp [handleSubmit, hu, hp, herr, hn], Or.inl rfl⟩
    · simp only [not_or] at hn
      exact ⟨badCredentialsMsg, by simp [handleSubmit, hu, hp, herr, hn.1, hn.2], Or.inr rfl⟩

/-- C7: every successful login — password path and Google path alike — performs, in
order: persist the two tokens, set the login-success flag, attempt the pending-survey
flush, then redirect to the saved redirect target when present, else the provided return
URL, else the application root; and a login submission is only ever attempted when the
locally validated username (trimmed) and password are non-empty. -/
theorem c7_login_success_flow (env : LoginEnv) (genv : GoogleEnv) (tp tg : TokenPair)
    (hu : jsTrim env.username ≠ "") (hp : env.password ≠ "")
    (hok : env.loginResult = .ok tp) (hgok : genv.googleResult = .ok tg) :
    handleSubmit env =
      [.loginAttempt, .storeAccessToken tp.accessToken, .storeRefreshToken tp.refreshToken,
       .setLoginSuccess, .surveyFlush] ++ redirectEvents env.redirectAfterLogin env.returnUrl ∧
    handleGoogleLoginResponse genv =
      [.storeAccessToken tg.accessToken, .storeRefreshToken tg.refreshToken,
       .setLoginSuccess, .surveyFlush] ++ redirectEvents genv.redirectAfterLogin genv.returnUrl ∧
    (∀ (r q : Option String) url, truthyStr r = some url →
      redirectEvents r q = [.clearRedirect, .redirect url]) ∧
    (∀ (r q : Option String) url, truthyStr r = none → truthyStr q = some url →
      redirectEvents r q = [.redirect url]) ∧
    (∀ (r q : Option String), truthyStr r = none → truthyStr q = none →
      redirectEvents r q = [.redirect "/"]) ∧
    (∀ env2 : LoginEnv, LEv.loginAttempt ∈ handleSubmit env2 →
      jsTrim env2.username ≠ "" ∧ env2.password ≠ "") := by
  refine ⟨?_, ?_, ?_, ?_, ?_, ?_⟩
  · simp [handleSubmit, loginServiceEvents, hu, hp, hok]
  · simp [handleGoogleLoginResponse, hgok]
  · intro r q url hr
    simp [redirectEvents, hr]
  · intro r q url hr hq
    simp [redirectEvents, hr, hq]
  · intro r q hr hq
    simp [redirectEvents, hr, hq]
  · intro env2 hmem
    by_cases hv : jsTrim env2.username = "" ∨ env2.password = ""
    · simp [handleSubmit, hv] at hmem
    · simp only [not_or] at hv
      exact hv

/-- Concrete environment whose status read yields `ON_GOING` and whose end mutation
resolves. -/
def c8OnGoingEnv : FetchEnv :=
  { userData := some ⟨"u1"⟩, accessToken := some "tok", refreshToken := some "rt",
    apptResponses := fun _ => .http 200 (.json (some "ON_GOING")),
    refreshResponse := .thrown, startPutOk := true, endPutOk := true }

/-- A running meeting with a live SDK handle and one live track per custom stream. -/
def c8MeetingState : MeetState :=
  { isMeetingStarted := true, meetingRefLive := true,
    customAudioStream := some [⟨false, 0⟩], customVideoStream := some [⟨false, 0⟩] }

/-- C8 (counterexample): on the consultant's confirm-end path — a single teardown of the
meeting flow — the external SDK handle is told to leave TWICE: once directly by
`handleConfirmEndMeeting` and once again by the `handleOnMeetingLeave` it then invokes
(the ref is only nulled afterwards), contradicting the claim that a second external leave
call is never issued. -/
theorem c8_cleanup_counterexample :
    c8MeetingState.leaveCalls = 0 ∧
    checkAppointmentStatus c8OnGoingEnv = ⟨"ON_GOING"⟩ ∧
    (handleConfirmEndMeeting c8OnGoingEnv c8MeetingState).leaveCalls = 2 := by
  decide

/-- All tracks of the optional stream are live and have never been stopped. -/
def openTracks : Option (List Track) → Prop
  | none => True
  | some ts => ∀ t ∈ ts, t.ended = false ∧ t.stops = 0

/-- All tracks of the optional stream have ended and transitioned to stopped exactly once. -/
def stoppedOnce : Option (List Track) → Prop
  | none => True
  | some ts => ∀ t ∈ ts, t.ended = true ∧ t.stops = 1

/-- Stopping a stream of open tracks stops every track exactly once. -/
lemma stopStream_open {o : Option (List Track)} (h : openTracks o) :
    stoppedOnce (stopStream o) := by
  rcases o with _ | ts
  · trivial
  · intro t ht
    simp only [stopStream, List.mem_map] at ht
    obtain ⟨u, hu, rfl⟩ := ht
    obtain ⟨h1, h2⟩ := h u hu
    simp [stopTrack, h1, h2]

/-- Stopping an already fully stopped stream changes nothing (tracks stay stopped once). -/
lemma stopStream_stopped {o : Option (List Track)} (h : stoppedOnce o) :
    stoppedOnce (stopStream o) := by
  rcases o with _ | ts
  · trivial
  · intro t ht
    simp only [stopStream, List.mem_map] at ht
    obtain ⟨u, hu, rfl⟩ := ht
    obtain ⟨h1, h2⟩ := h u hu
    simp [stopTrack, h1, h2]

/-- The leave handler increments the SDK leave count only while the ref is live. -/
lemma handleOnMeetingLeave_leaveCalls (st : MeetState) :
    (handleOnMeetingLeave st).leaveCalls =
      if st.meetingRefLive then st.leaveCalls + 1 else st.leaveCalls := by
  simp only [handleOnMeetingLeave]
  split <;> simp_all

/-- The leave handler nulls the meeting ref. -/
lemma handleOnMeetingLeave_refLive (st : MeetState) :
    (handleOnMeetingLeave st).meetingRefLive = false := by
  simp [handleOnMeetingLeave]

/-- The leave handler stops the custom audio stream. -/
lemma handleOnMeetingLeave_audio (st : MeetState) :
    (handleOnMeetingLeave st).customAudioStream = stopStream st.customAudioStream := by
  simp only [handleOnMeetingLeave]
  split <;> simp

/-- The leave handler stops the custom video stream. -/
lemma handleOnMeetingLeave_video (st : MeetState) :
    (handleOnMeetingLeave st).customVideoStream = stopStream st.customVideoStream := by
  simp only [handleOnMeetingLeave]
  split <;> simp

/-- The unmount cleanup issues a leave only while the ref is live. -/
lemma unmountCleanup_leaveCalls (st : MeetState) :
    (unmountCleanup st).leaveCalls =
      if st.meetingRefLive then st.leaveCalls + 1 else st.leaveCalls := by
  simp only [unmountCleanup]
  split
  · split <;> simp_all
  · simp_all

/-- The unmount cleanup stops the custom audio stream. -/
lemma unmountCleanup_audio (st : MeetState) :
    (unmountCleanup st).customAudioStream = stopStream st.customAudioStream := by
  simp only [unmountCleanup]
  split
  · split <;> simp
  · simp

/-- The unmount cleanup stops the custom video stream. -/
lemma unmountCleanup_video (st : MeetState) :
    (unmountCleanup st).customVideoStream = stopStream st.customVideoStream := by
  simp only [unmountCleanup]
  split
  · split <;> simp
  · simp

/-- C8 (amended): on every teardown that goes through `handleOnMeetingLeave` and/or the
unmount cleanup effect, all open local media tracks are stopped exactly once and the
external leave call is issued exactly once, even when teardown is triggered twice — the
second trigger finds the ref nulled and is a no-op, and re-stopping stopped tracks does
not change them. (The consultant confirm-end path is the exception recorded by the
counterexample: it issues a direct leave call before delegating.) -/
theorem c8_cleanup_amended (st : MeetState)
    (ha : openTracks st.customAudioStream) (hv : openTracks st.customVideoStream)
    (href : st.meetingRefLive = true) (hl : st.leaveCalls = 0) :
    ((handleOnMeetingLeave st).leaveCalls = 1 ∧
      stoppedOnce (handleOnMeetingLeave st).customAudioStream ∧
      stoppedOnce (handleOnMeetingLeave st).customVideoStream) ∧
    ((handleOnMeetingLeave (handleOnMeetingLeave st)).leaveCalls = 1 ∧
      stoppedOnce (handleOnMeetingLeave (handleOnMeetingLeave st)).customAudioStream ∧
      stoppedOnce (handleOnMeetingLeave (handleOnMeetingLeave st)).customVideoStream) ∧
    ((unmountCleanup (handleOnMeetingLeave st)).leaveCalls = 1 ∧
      stoppedOnce (unmountCleanup (handleOnMeetingLeave st)).customAudioStream ∧
      stoppedOnce (unmountCleanup (handleOnMeetingLeave st)).customVideoStream) ∧
    ((unmountCleanup st).leaveCalls = 1 ∧
      stoppedOnce (unmountCleanup st).customAudioStream ∧
      stoppedOnce (unmountCleanup st).customVideoStream) := by
  have hsa := stopStream_open ha
  have hsv := stopStream_open hv
  refine ⟨⟨?_, ?_, ?_⟩, ⟨?_, ?_, ?_⟩, ⟨?_, ?_, ?_⟩, ⟨?_, ?_, ?_⟩⟩
  · simp [handleOnMeetingLeave_leaveCalls, href, hl]
  · simpa [handleOnMeetingLeave_audio] using hsa
  · simpa [handleOnMeetingLeave_video] using hsv
  · simp [handleOnMeetingLeave_leaveCalls, handleOnMeetingLeave_refLive, href, hl]
  · simpa [handleOnMeetingLeave_audio] using stopStream_stopped hsa
  · simpa [handleOnMeetingLeave_video] using stopStream_stopped hsv
  · simp [unmountCleanup_leaveCalls, handleOnMeetingLeave_leaveCalls,
      handleOnMeetingLeave_refLive, href, hl]
  · simpa [unmountCleanup_audio, handleOnMeetingLeave_audio] using stopStream_stopped hsa
  · simpa [unmountCleanup_video, handleOnMeetingLeave_video] using stopStream_stopped hsv
  · simp [unmountCleanup_leaveCalls, href, hl]
  · simpa [unmountCleanup_audio] using hsa
  · simpa [unmountCleanup_video] using hsv

/-- Whenever the guarded fetch yields UNKNOWN, so does the whole status read. -/
lemma check_UNKNOWN_of_fetch {env : FetchEnv}
    (h : (fetchAppointmentWithTokenRefresh env 0 1).1 = ⟨"UNKNOWN"⟩) :
    checkAppointmentStatus env = ⟨"UNKNOWN"⟩ := by
  unfold checkAppointmentStatus checkAppointmentStatusBody
  rcases env.userData with _ | u
  · rfl
  · by_cases hid : u.id = "" <;> simp [hid, h]

/-- A missing access token short-circuits the fetch to UNKNOWN. -/
lemma fetch_UNKNOWN_noToken {env : FetchEnv} {idx n : Nat} (h : env.accessToken = none) :
    (fetchAppointmentWithTokenRefresh env idx n).1 = ⟨"UNKNOWN"⟩ := by
  unfold fetchAppointmentWithTokenRefresh
  simp [h]

/-- A rejected appointment request yields UNKNOWN. -/
lemma fetch_UNKNOWN_thrown {env : FetchEnv} {idx n : Nat}
    (h : env.apptResponses idx = .thrown) :
    (fetchAppointmentWithTokenRefresh env idx n).1 = ⟨"UNKNOWN"⟩ := by
  unfold fetchAppointmentWithTokenRefresh
  rcases env.accessToken with _ | tok
  · rfl
  · by_cases ht : tok = "" <;> simp [ht, h]

/-- A first 401 whose refresh fails yields UNKNOWN. -/
lemma fetch_UNKNOWN_401_refresh_err {env : FetchEnv} {b : ApptBody}
    (h : env.apptResponses 0 = .http 401 b) (hr : refreshAccessToken env = .error ()) :
    (fetchAppointmentWithTokenRefresh env 0 1).1 = ⟨"UNKNOWN"⟩ := by
  unfold fetchAppointmentWithTokenRefresh
  rcases env.accessToken with _ | tok
  · rfl
  · by_cases ht : tok = "" <;> simp [ht, h, hr]

/-- A malformed body is UNKNOWN whatever the status code. -/
lemma processResponse_malformed (c : Nat) : processResponse c .malformed = ⟨"UNKNOWN"⟩ := by
  unfold processResponse
  split <;> rfl

/-- A body without a status field is UNKNOWN whatever the status code. -/
lemma processResponse_noStatus (c : Nat) : processResponse c (.json none) = ⟨"UNKNOWN"⟩ := by
  unfold processResponse
  split <;> rfl

/-- A delivered non-401 first response is handled by `processResponse`. -/
lemma fetch_processes_delivered {env : FetchEnv} {c : Nat} {b : ApptBody}
    (h : env.apptResponses 0 = .http c b) (hne : c ≠ 401)
    (htok : ∃ t, env.accessToken = some t ∧ t ≠ "") :
    (fetchAppointmentWithTokenRefresh env 0 1).1 = processResponse c b := by
  obtain ⟨t, ht, hte⟩ := htok
  unfold fetchAppointmentWithTokenRefresh
  simp [ht, hte, h, hne]

/-- C9: the appointment-status read is total over errors — every failure mode (missing
user data or id, missing access token, rejected request, failed refresh after a 401,
non-ok response, malformed body, missing status field) yields `{status: "UNKNOWN"}`, and
the read never propagates an error: its try-block body either errors (mapped to UNKNOWN
by the embedded catch, so the callers' catch branches are unreachable) or returns exactly
the value the callers observe. -/
theorem c9_status_check_total (env : FetchEnv) :
    (∀ e, checkAppointmentStatusBody env = .error e →
      checkAppointmentStatus env = ⟨"UNKNOWN"⟩) ∧
    (env.userData = none → checkAppointmentStatus env = ⟨"UNKNOWN"⟩) ∧
    (∀ u, env.userData = some u → u.id = "" → checkAppointmentStatus env = ⟨"UNKNOWN"⟩) ∧
    (env.accessToken = none → checkAppointmentStatus env = ⟨"UNKNOWN"⟩) ∧
    (env.apptResponses 0 = .thrown → checkAppointmentStatus env = ⟨"UNKNOWN"⟩) ∧
    (∀ b, env.apptResponses 0 = .http 401 b → refreshAccessToken env = .error () →
      checkAppointmentStatus env = ⟨"UNKNOWN"⟩) ∧
    (∀ c b, env.apptResponses 0 = .http c b → c ≠ 401 → respOk c = false →
      checkAppointmentStatus env = ⟨"UNKNOWN"⟩) ∧
    (∀ c, env.apptResponses 0 = .http c .malformed → c ≠ 401 →
      checkAppointmentStatus env = ⟨"UNKNOWN"⟩) ∧
    (∀ c, env.apptResponses 0 = .http c (.json none) → c ≠ 401 →
      checkAppointmentStatus env = ⟨"UNKNOWN"⟩) ∧
    (checkAppointmentStatus env = ⟨"UNKNOWN"⟩ ∨
      checkAppointmentStatusBody env = .ok (checkAppointmentStatus env)) := by
  have hdeliv : ∀ c b, env.apptResponses 0 = .http c b → c ≠ 401 →
      processResponse c b = ⟨"UNKNOWN"⟩ → checkAppointmentStatus env = ⟨"UNKNOWN"⟩ := by
    intro c b h hne hp
    rcases htok : env.accessToken with _ | t
    · exact check_UNKNOWN_of_fetch (fetch_UNKNOWN_noToken htok)
    · by_cases hte : t = ""
      · subst hte
        refine check_UNKNOWN_of_fetch ?_
        unfold fetchAppointmentWithTokenRefresh
        simp [htok]
      · exact check_UNKNOWN_of_fetch
          ((fetch_processes_delivered h hne ⟨t, htok, hte⟩).trans hp)
  refine ⟨?_, ?_, ?_, ?_, ?_, ?_, ?_, ?_, ?_, ?_⟩
  · intro e he
    simp [checkAppointmentStatus, he]
  · intro h
    simp [checkAppointmentStatus, checkAppointmentStatusBody, h]
  · intro u hu hid
    simp [checkAppointmentStatus, checkAppointmentStatusBody, hu, hid]
  · intro h
    exact check_UNKNOWN_of_fetch (fetch_UNKNOWN_noToken h)
  · intro h
    exact check_UNKNOWN_of_fetch (fetch_UNKNOWN_thrown h)
  · intro b h hr
    exact check_UNKNOWN_of_fetch (fetch_UNKNOWN_401_refresh_err h hr)
  · intro c b h hne hok
    refine hdeliv c b h hne ?_
    unfold processResponse
    simp [hok]
  · intro c h hne
    exact hdeliv c _ h hne (processResponse_malformed c)
  · intro c h hne
    exact hdeliv c _ h hne (processResponse_noStatus c)
  · rcases hb : checkAppointmentStatusBody env with e | r
    · exact Or.inl (by simp [checkAppointmentStatus, hb])
    · exact Or.inr (by simp [checkAppointmentStatus, hb])

/-- C10: whenever a queued survey payload is present at login success, the flush removes
it from durable storage and writes a success-or-failure result record — whether the
payload is malformed, incomplete, or the submission succeeds or fails — a success record
being written exactly when a submission was attempted and succeeded; since the payload is
always removed, a later login attempts no resubmission. -/
theorem c10_survey_flush (env : SurveyEnv) (hp : env.pending ≠ .absent) :
    (handlePendingSurveySubmission env).pendingAfter = .absent ∧
    (handlePendingSurveySubmission env).resultRecord ≠ none ∧
    ((handlePendingSurveySubmission env).resultRecord = some true ↔
      env.submitOk = true ∧ (handlePendingSurveySubmission env).submitAttempted = true) ∧
    (∀ b, (handlePendingSurveySubmission
      { pending := (handlePendingSurveySubmission env).pendingAfter,
        submitOk := b }).submitAttempted = false) := by
  rcases henv : env.pending with _ | _ | ⟨sid, ids⟩
  · exact absurd henv hp
  · refine ⟨?_, ?_, ?_, ?_⟩ <;>
      simp [handlePendingSurveySubmission, henv]
  · by_cases hval : truthyStr sid = none ∨ ids = none
    · refine ⟨?_, ?_, ?_, ?_⟩ <;>
        simp [handlePendingSurveySubmission, henv, hval]
    · rcases hok : env.submitOk <;>
        refine ⟨?_, ?_, ?_, ?_⟩ <;>
        simp [handlePendingSurveySubmission, henv, hval, hok]

/-- Concrete environment whose status read yields `CONFIRMED`. -/
def c1WitnessEnv : FetchEnv :=
  { userData := some ⟨"u1"⟩, accessToken := some "tok", refreshToken := some "rt",
    apptResponses := fun _ => .http 200 (.json (some "CONFIRMED")),
    refreshResponse := .thrown, startPutOk := true, endPutOk := true }

/-- Witness for C1 at status `CONFIRMED`: the prompt opens and confirming issues the
start mutation. -/
theorem c1_start_gate_witness :
    (onClickStartMeeting c1WitnessEnv true "Alice" {}).openStartDialog = true ∧
    (handleConfirmStartMeeting c1WitnessEnv
      (onClickStartMeeting c1WitnessEnv true "Alice" {})).startCalls = 1 := by
  have h := c1_start_gate c1WitnessEnv "Alice" {} "CONFIRMED" ⟨"u1"⟩
    (by decide) (by decide) rfl (by decide) rfl (by decide) (by decide) (by decide)
  have h2 := h.2 (by decide)
  exact ⟨h2.1, (h2.2.2.2.1).mpr rfl⟩

/-- Concrete environment whose status read yields `ON_GOING`. -/
def c2WitnessEnv : FetchEnv :=
  { userData := some ⟨"u1"⟩, accessToken := some "tok", refreshToken := some "rt",
    apptResponses := fun _ => .http 200 (.json (some "ON_GOING")),
    refreshResponse := .thrown, startPutOk := true, endPutOk := true }

/-- A running meeting with a live handle, used as the witness starting state. -/
def c2WitnessState : MeetState := { isMeetingStarted := true, meetingRefLive := true }

/-- Witness for C2 at status `ON_GOING`: the end dialog opens and confirming issues the
end mutation with the entered note. -/
theorem c2_end_gate_witness :
    (handleEndMeeting c2WitnessEnv true c2WitnessState).openEndDialog = true ∧
    (handleConfirmEndMeeting c2WitnessEnv (setConsultantNote "the note"
      (handleEndMeeting c2WitnessEnv true c2WitnessState))).endCalls = ["the note"] := by
  have h := c2_end_gate c2WitnessEnv c2WitnessState "ON_GOING" "the note" ⟨"u1"⟩
    (by decide) rfl (by decide) rfl rfl (by decide) (by decide)
  have h2 := h.2 rfl
  exact ⟨h2.1, h2.2.2.2.1⟩

/-- Concrete environment: a first 401, then a successful refresh and a successful retry. -/
def c3WitnessEnv : FetchEnv :=
  { userData := some ⟨"u1"⟩, accessToken := some "tok", refreshToken := some "rt",
    apptResponses := fun i =>
      if i = 0 then .http 401 .malformed else .http 200 (.json (some "CONFIRMED")),
    refreshResponse := .http 200 (.json (some "newtok")), startPutOk := true, endPutOk := true }

/-- Witness for C3: a 401 followed by one refresh and one successful retry performs
exactly one refresh and yields the real status. -/
theorem c3_refresh_retry_witness :
    (fetchAppointmentWithTokenRefresh c3WitnessEnv 0 1).2.refreshCalls = 1 ∧
    (fetchAppointmentWithTokenRefresh c3WitnessEnv 0 1).1 = ⟨"CONFIRMED"⟩ := by
  have h := c3_refresh_retry c3WitnessEnv "tok" .malformed rfl (by decide) (by decide)
  refine ⟨h.1, ?_⟩
  have h4 := h.2.2.2 "newtok" rfl
  exact h4.2.1 200 "CONFIRMED" (by decide) (by decide) (by decide)

/-- Tab environment with a signed-in profile of id `U1`. -/
def c5ProfileEnv : IdEnv :=
  { userProfile := .parsed ⟨some "U1", none, none⟩, tempParticipantId := none,
    nextUUID := "uuid-1" }

/-- Fresh anonymous tab drawing `uuid-1`. -/
def c5AnonEnv : IdEnv :=
  { userProfile := .absent, tempParticipantId := none, nextUUID := "uuid-1" }

/-- A second fresh anonymous tab drawing `uuid-2`. -/
def c5AnonEnv2 : IdEnv :=
  { userProfile := .absent, tempParticipantId := none, nextUUID := "uuid-2" }

/-- Witness for C5: profile `U1` and meeting `M1` derive the stable id; an anonymous tab
returns the cached id twice; two fresh tabs differ. -/
theorem c5_participant_identity_witness :
    (getParticipantId "M1" c5ProfileEnv).1 = "user-" ++ "U1" ++ "-meeting-" ++ "M1" ∧
    (getParticipantId "M1" (getParticipantId "M1" c5AnonEnv).2).1 =
      (getParticipantId "M1" c5AnonEnv).1 ∧
    (getParticipantId "M1" c5AnonEnv).1 ≠ (getParticipantId "M1" c5AnonEnv2).1 := by
  have h := c5_participant_identity "M1" c5AnonEnv c5AnonEnv2 ⟨some "U1", none, none⟩ "U1"
  have hp := c5_participant_identity "M1" c5ProfileEnv c5AnonEnv2 ⟨some "U1", none, none⟩ "U1"
  exact ⟨(hp.1 rfl rfl (by decide)).1, h.2.1 (by decide),
    h.2.2 (by decide) (by decide) rfl rfl (by decide)⟩

/-- A failed password login whose error is a `TypeError`. -/
def c6WitnessEnv : LoginEnv :=
  { username := "alice", password := "pw", loginResult := .error ⟨"TypeError"⟩,
    redirectAfterLogin := none, returnUrl := none }

/-- Witness for C6: a `TypeError` failure produces exactly the connectivity notice. -/
theorem c6_login_error_buckets_witness :
    handleSubmit c6WitnessEnv = [.loginAttempt, .alertError networkErrorMsg] := by
  have h := c6_login_error_buckets c6WitnessEnv ⟨"TypeError"⟩ (by decide) (by decide) rfl
  exact h.1 (Or.inl rfl)

/-- A successful password login with a return URL. -/
def c7WitnessEnv : LoginEnv :=
  { username := "alice", password := "pw", loginResult := .ok ⟨"at1", "rt1"⟩,
    redirectAfterLogin := none, returnUrl := some "/ret" }

/-- A successful Google login with a saved redirect target. -/
def c7WitnessGEnv : GoogleEnv :=
  { googleResult := .ok ⟨"at2", "rt2"⟩, redirectAfterLogin := some "/saved", returnUrl := none }

/-- Witness for C7: both success paths perform the ordered event sequence. -/
theorem c7_login_success_flow_witness :
    handleSubmit c7WitnessEnv =
      [.loginAttempt, .storeAccessToken "at1", .storeRefreshToken "rt1",
       .setLoginSuccess, .surveyFlush] ++
        redirectEvents c7WitnessEnv.redirectAfterLogin c7WitnessEnv.returnUrl ∧
    handleGoogleLoginResponse c7WitnessGEnv =
      [.storeAccessToken "at2", .storeRefreshToken "rt2",
       .setLoginSuccess, .surveyFlush] ++
        redirectEvents c7WitnessGEnv.redirectAfterLogin c7WitnessGEnv.returnUrl := by
  have h := c7_login_success_flow c7WitnessEnv c7WitnessGEnv ⟨"at1", "rt1"⟩ ⟨"at2", "rt2"⟩
    (by decide) (by decide) rfl rfl
  exact ⟨h.1, h.2.1⟩

/-- A running meeting with a live handle and one live track per custom stream. -/
def c8WitnessState : MeetState :=
  { isMeetingStarted := true, meetingRefLive := true,
    customAudioStream := some [⟨false, 0⟩], customVideoStream := some [⟨false, 0⟩] }

/-- Witness for C8 (amended): double teardown through the leave handler issues exactly
one leave call and each track reports stopped exactly once. -/
theorem c8_cleanup_amended_witness :
    (handleOnMeetingLeave (handleOnMeetingLeave c8WitnessState)).leaveCalls = 1 ∧
    stoppedOnce (handleOnMeetingLeave (handleOnMeetingLeave c8WitnessState)).customAudioStream ∧
    stoppedOnce (handleOnMeetingLeave (handleOnMeetingLeave c8WitnessState)).customVideoStream := by
  have h := c8_cleanup_amended c8WitnessState
    (by simp [c8WitnessState, openTracks]) (by simp [c8WitnessState, openTracks]) rfl rfl
  exact h.2.1

/-- An environment whose user data is missing, one of C9's failure modes. -/
def c9WitnessEnv : FetchEnv :=
  { userData := none, accessToken := none, refreshToken := none,
    apptResponses := fun _ => .thrown, refreshResponse := .thrown,
    startPutOk := true, endPutOk := true }

/-- Witness for C9: the missing-user-data failure mode yields `UNKNOWN` (and no error). -/
theorem c9_status_check_total_witness :
    checkAppointmentStatus c9WitnessEnv = ⟨"UNKNOWN"⟩ :=
  (c9_status_check_total c9WitnessEnv).2.1 rfl

/-- A queued, well-formed survey payload whose submission fails. -/
def c10WitnessEnv : SurveyEnv :=
  { pending := .payload (some "s1") (some [1, 2]), submitOk := false }

/-- Witness for C10: a failed submission still removes the queued payload, so a later
login attempts no resubmission. -/
theorem c10_survey_flush_witness :
    (handlePendingSurveySubmission c10WitnessEnv).pendingAfter = .absent ∧
    (handlePendingSurveySubmission
      { pending := (handlePendingSurveySubmission c10WitnessEnv).pendingAfter,
        submitOk := true }).submitAttempted = false := by
  have h := c10_survey_flush c10WitnessEnv (by decide)
  exact ⟨h.1, h.2.2.2 true⟩
